import Mathlib

/-!
Verification of the subscription discovery engine
(`server/services/subscription_discovery_service.py`).

The Python code is shallowly embedded: merchant names are `String`,
money amounts and confidence scores are `ℚ` (the Python code computes
them with `float`/`Decimal`; the heuristic constants are exact decimal
fractions, so rational arithmetic mirrors the intended values), and
`datetime` values are modelled as a day count (`ℕ`) measured from
`datetime.min`, so that `datetime.min` itself is day `0`.  Regex
searches for the literal patterns of the taxonomy are substring tests,
which is exactly what `re.search` does on these patterns (the only two
non-literal regexes, `disney\+?` and `box\.com`, match a string iff it
contains "disney" resp. "box.com").  Optional fields become `Option`.
-/

/-! ### Generic string helpers mirroring the Python primitives -/

/-- Lower-cases every character of a string, as the Python `str.lower`
does on the ASCII merchant names used by the service. -/
def strLower (s : String) : String := ⟨s.data.map Char.toLower⟩

/-- Decides whether a list starts with the given segment. -/
def listStartsWith : List Char → List Char → Bool
  | [], _ => true
  | _ :: _, [] => false
  | p :: ps, t :: ts => p == t && listStartsWith ps ts

/-- Decides whether `pat` occurs as a contiguous segment of the second list. -/
def listContainsSeg (pat : List Char) : List Char → Bool
  | [] => listStartsWith pat []
  | t :: ts => listStartsWith pat (t :: ts) || listContainsSeg pat ts

/-- Substring containment: the Python `pat in text` on strings, and also
`re.search(pat, text)` for the literal patterns of the taxonomy. -/
def containsSub (text pat : String) : Bool := listContainsSeg pat.data text.data

/-- Strips leading and trailing whitespace, as the Python `str.strip`. -/
def trimStr (s : String) : String :=
  ⟨((s.data.dropWhile Char.isWhitespace).reverse.dropWhile Char.isWhitespace).reverse⟩

/-- Helper for `pyTitle`: the boolean records whether the previous
character was alphabetic. -/
def pyTitleAux : Bool → List Char → List Char
  | _, [] => []
  | prevAlpha, c :: cs =>
      (if c.isAlpha then (if prevAlpha then c.toLower else c.toUpper) else c) ::
        pyTitleAux c.isAlpha cs

/-- Title-casing of a string, as the Python `str.title` behaves on the
ASCII merchant names used by the service. -/
def pyTitle (s : String) : String := ⟨pyTitleAux false s.data⟩

/-- Models the Python `a or b` idiom on optional strings, where the
empty string counts as falsy. -/
def pyOrStr (a b : Option String) : Option String :=
  match a with
  | none => b
  | some s => if s = "" then b else some s

/-- Models the Python `a or b` idiom on optional values whose payloads
are always truthy (dates, non-empty dicts). -/
def pyOrOpt {α : Type} (a b : Option α) : Option α :=
  match a with
  | none => b
  | some x => some x

/-! ### Merchant taxonomy and classifier (`_load_subscription_patterns`,
`_classify_merchant`) -/

/-- The static rule table of `_load_subscription_patterns`, in the
insertion order of the Python dict: pattern-group name paired with the
list of (lower-case, literal) merchant patterns.  The unused
`typical_amounts` hints are omitted; the `category` field of the dict
is never read by the code and is likewise omitted (see claim C3). -/
def subscription_patterns : List (String × List String) :=
  [ ("streaming",
     ["netflix", "spotify", "apple music", "amazon prime",
      "hulu", "disney", "hbo", "paramount", "peacock"]),
    ("productivity",
     ["microsoft 365", "office 365", "adobe", "dropbox",
      "google workspace", "slack", "zoom", "notion"]),
    ("cloud_storage",
     ["icloud", "google drive", "onedrive", "dropbox",
      "box.com", "mega"]),
    ("fitness",
     ["peloton", "fitbit", "myfitnesspal", "strava",
      "nike training", "apple fitness"]),
    ("news",
     ["new york times", "washington post", "wall street journal",
      "the economist", "medium", "substack"]) ]

/-- First rule group whose pattern list has a member occurring in the
lower-cased merchant name; mirrors the nested loops of
`_classify_merchant`. -/
def findCategory : List (String × List String) → String → Option String
  | [], _ => none
  | (cat, pats) :: rest, m =>
      if pats.any (fun p => containsSub m p) then some cat else findCategory rest m

/-- The subscription-indicator tokens checked by `_classify_merchant`
when no taxonomy rule matches. -/
def subscription_indicators : List String :=
  ["subscription", "monthly", "premium", "pro", "plus"]

/-- Embeds `_classify_merchant`: taxonomy match gives confidence `0.9`
with the matching group name, otherwise an indicator token gives
`("unknown", 0.6)`, otherwise `("unknown", 0.3)`. -/
def classify_merchant (merchant_name : String) : String × ℚ :=
  let ml := strLower merchant_name
  match findCategory subscription_patterns ml with
  | some cat => (cat, 9/10)
  | none =>
      if subscription_indicators.any (fun i => containsSub ml i) then ("unknown", 6/10)
      else ("unknown", 3/10)

/-! ### Recurring pattern detector (`_detect_recurring_pattern`) -/

/-- One grouped bank transaction: absolute amount and date (a day
count).  The caller of the detector groups transactions by merchant and
sorts each group by date ascending. -/
structure Txn where
  amount : ℚ
  date : ℕ

/-- The record returned by `_detect_recurring_pattern` on success. -/
structure PatternResult where
  billing_cycle : String
  average_amount : ℚ
  interval_consistency : ℚ
  last_transaction_date : ℕ
  transaction_count : ℕ

/-- Consecutive differences of a list of dates, as integers; mirrors
the interval loop of `_detect_recurring_pattern`. -/
def intervalsOf : List ℕ → List ℤ
  | [] => []
  | [_] => []
  | a :: b :: rest => ((b : ℤ) - (a : ℤ)) :: intervalsOf (b :: rest)

/-- The Python `max` builtin on a non-empty integer list (`0` on the
empty list, which the code never reaches). -/
def listMaxI : List ℤ → ℤ
  | [] => 0
  | a :: rest => rest.foldl max a

/-- The Python `min` builtin on a non-empty integer list. -/
def listMinI : List ℤ → ℤ
  | [] => 0
  | a :: rest => rest.foldl min a

/-- The Python `max` builtin on a non-empty list of day counts. -/
def listMaxN : List ℕ → ℕ
  | [] => 0
  | a :: rest => rest.foldl max a

/-- The ratio `len(set(amounts)) / len(amounts)` computed by
`_detect_recurring_pattern` (number of distinct amounts over the
transaction count). -/
def amount_consistency (txs : List Txn) : ℚ :=
  (((txs.map Txn.amount).dedup.length : ℕ) : ℚ) / ((txs.length : ℕ) : ℚ)

/-- The consecutive-day intervals of a transaction group. -/
def txIntervals (txs : List Txn) : List ℤ := intervalsOf (txs.map Txn.date)

/-- The average consecutive-day interval `sum(intervals)/len(intervals)`. -/
def avg_interval (txs : List Txn) : ℚ :=
  (((txIntervals txs).sum : ℤ) : ℚ) / (((txIntervals txs).length : ℕ) : ℚ)

/-- The billing-cycle classification of an average interval: the
`if`/`elif` chain of `_detect_recurring_pattern`, with `none` for the
final `else: return None`. -/
def cycleOfAvg (avg : ℚ) : Option String :=
  if 25 ≤ avg ∧ avg ≤ 35 then some "monthly"
  else if 85 ≤ avg ∧ avg ≤ 95 then some "quarterly"
  else if 350 ≤ avg ∧ avg ≤ 375 then some "annual"
  else if 6 ≤ avg ∧ avg ≤ 8 then some "weekly"
  else none

/-- Embeds `_detect_recurring_pattern`: reject groups of fewer than two
transactions, reject when the distinct-amount ratio exceeds `0.3`,
classify the average interval into a billing cycle (rejecting when none
fits), and otherwise emit the pattern record. -/
def detect_recurring_pattern (txs : List Txn) : Option PatternResult :=
  if txs.length < 2 then none
  else if amount_consistency txs > 3/10 then none
  else
    match cycleOfAvg (avg_interval txs) with
    | none => none
    | some cycle =>
        some { billing_cycle := cycle
               average_amount := (txs.map Txn.amount).sum / ((txs.length : ℕ) : ℚ)
               interval_consistency :=
                 1 - (((listMaxI (txIntervals txs) - listMinI (txIntervals txs)) : ℤ) : ℚ) /
                   avg_interval txs
               last_transaction_date := listMaxN (txs.map Txn.date)
               transaction_count := txs.length }

/-! ### The core output entity (`DetectedSubscription`) -/

/-- The `DetectedSubscription` dataclass.  Dates are day counts from
`datetime.min` (so `datetime.min` is `0`); the `cancellation_info`
dict is modelled by its `url` field, the only part any claim observes. -/
structure DetectedSubscription where
  merchant_name : String
  service_name : Option String
  amount : ℚ
  billing_cycle : String
  category : String
  confidence_score : ℚ
  detection_source : String
  last_transaction_date : Option ℕ
  next_billing_date : Option ℕ
  cancellation_info : Option String
  plaid_stream_id : Option String := none

/-- Generic first-entry lookup: returns the value of the first table key
contained in the (lower-cased) merchant name; mirrors the dict loops of
`_get_service_name` and `_get_cancellation_info`. -/
def lookupContains : List (String × String) → String → Option String
  | [], _ => none
  | (k, v) :: rest, m => if containsSub m k then some v else lookupContains rest m

/-- The table of `_get_service_name`, in dict insertion order. -/
def service_names : List (String × String) :=
  [ ("netflix", "Netflix"), ("spotify", "Spotify"),
    ("adobe", "Adobe Creative Cloud"), ("microsoft", "Microsoft 365"),
    ("apple", "Apple Services"), ("google", "Google Workspace"),
    ("amazon", "Amazon Prime") ]

/-- Embeds `_get_service_name`. -/
def get_service_name (merchant_name : String) : Option String :=
  lookupContains service_names (strLower merchant_name)

/-- The table of `_get_cancellation_info`, each dict represented by its
`url` field. -/
def cancellation_urls : List (String × String) :=
  [ ("netflix", "https://www.netflix.com/account"),
    ("spotify", "https://www.spotify.com/account/subscription/"),
    ("adobe", "https://account.adobe.com/plans") ]

/-- Embeds `_get_cancellation_info`. -/
def get_cancellation_info (merchant_name : String) : Option String :=
  lookupContains cancellation_urls (strLower merchant_name)

/-! ### Bank discovery path over grouped transactions
(`_analyze_recurring_transactions`, `_create_subscription_from_transaction`) -/

/-- One entry of the list built by `_analyze_recurring_transactions`:
the merchant, the detected pattern, and the classifier output. -/
structure RecurringData where
  merchant_name : String
  pattern : PatternResult
  category : String
  confidence : ℚ

/-- Embeds `_create_subscription_from_transaction`. -/
def create_subscription_from_transaction (rd : RecurringData) : DetectedSubscription :=
  let next_date : Option ℕ :=
    if rd.pattern.billing_cycle = "monthly" then some (rd.pattern.last_transaction_date + 30)
    else if rd.pattern.billing_cycle = "quarterly" then some (rd.pattern.last_transaction_date + 90)
    else if rd.pattern.billing_cycle = "annual" then some (rd.pattern.last_transaction_date + 365)
    else if rd.pattern.billing_cycle = "weekly" then some (rd.pattern.last_transaction_date + 7)
    else none
  { merchant_name := pyTitle rd.merchant_name
    service_name := get_service_name rd.merchant_name
    amount := rd.pattern.average_amount
    billing_cycle := rd.pattern.billing_cycle
    category := rd.category
    confidence_score := rd.confidence * rd.pattern.interval_consistency
    detection_source := "bank"
    last_transaction_date := some rd.pattern.last_transaction_date
    next_billing_date := next_date
    cancellation_info := get_cancellation_info rd.merchant_name
    plaid_stream_id := none }

/-- The per-group pipeline of the transaction-based bank discovery
path: `_analyze_recurring_transactions` runs the detector on one
date-sorted merchant group, gates on classifier confidence `> 0.7`,
and the surviving entry is turned into a record by
`_create_subscription_from_transaction`. -/
def bank_candidate_for_group (merchant : String) (txs : List Txn) :
    Option DetectedSubscription :=
  match detect_recurring_pattern txs with
  | none => none
  | some pat =>
      let cc := classify_merchant merchant
      if cc.2 > 7/10 then
        some (create_subscription_from_transaction ⟨merchant, pat, cc.1, cc.2⟩)
      else none

/-! ### Email signal extractor (`_extract_subscription_info_from_email`
and its helpers).  The regex machinery that produces the per-pattern
match lists of `_extract_amount_from_text`, and the sender/subject
merchant extraction, are abstracted as inputs: the embedding takes the
list of numeric values matched by each amount pattern (every match of
the shape `\d+\.?\d*` parses as a float, so `float()` never fails on
them) and the optional merchant names recovered from sender and
subject. -/

/-- Embeds `_extract_amount_from_text`: walk the amount patterns in
order; for the first pattern with any match, test its first matched
value against the plausibility band `[0.99, 999.99]`; accept it inside
the band, otherwise move on to the next pattern; `none` when no
pattern yields an acceptable first match. -/
def extract_amount_from_text : List (List ℚ) → Option ℚ
  | [] => none
  | ms :: rest =>
      match ms with
      | [] => extract_amount_from_text rest
      | a :: _ =>
          if 99/100 ≤ a ∧ a ≤ 99999/100 then some a
          else extract_amount_from_text rest

/-- Embeds `_extract_billing_cycle_from_text` (the keyword scan over
the combined lower-cased text, defaulting to monthly). -/
def extract_billing_cycle_from_text (text : String) : String :=
  if containsSub text "monthly" || containsSub text "month" || containsSub text "/mo" then
    "monthly"
  else if containsSub text "annual" || containsSub text "yearly" ||
      containsSub text "year" || containsSub text "/yr" then "annual"
  else if containsSub text "weekly" || containsSub text "week" then "weekly"
  else if containsSub text "quarterly" || containsSub text "quarter" then "quarterly"
  else "monthly"

/-- Embeds `_calculate_next_billing_date_from_cycle`. -/
def calculate_next_billing_date_from_cycle (last_date : ℕ) (cycle : String) : ℕ :=
  if cycle = "weekly" then last_date + 7
  else if cycle = "monthly" then last_date + 30
  else if cycle = "quarterly" then last_date + 90
  else if cycle = "annual" then last_date + 365
  else last_date + 30

/-- The dict returned by `_extract_subscription_info_from_email`. -/
structure EmailInfo where
  merchant_name : String
  service_name : Option String
  amount : ℚ
  billing_cycle : String
  category : String
  confidence_score : ℚ
  next_billing_date : Option ℕ
  cancellation_info : Option String

/-- Embeds `_extract_subscription_info_from_email`: merchant from the
sender with subject fallback (a Python `or`), amount through the
plausibility band, cycle keyword scan, classification with a `+0.1`
boost clamped to `1.0`, and the service/cancellation lookups. -/
def extract_subscription_info_from_email (senderMerchant subjectMerchant : Option String)
    (amountMatches : List (List ℚ)) (fullText : String) (date : Option ℕ) :
    Option EmailInfo :=
  match pyOrStr senderMerchant subjectMerchant with
  | none => none
  | some merchant_name =>
      match extract_amount_from_text amountMatches with
      | none => none
      | some amount =>
          let billing_cycle := extract_billing_cycle_from_text fullText
          let cc := classify_merchant merchant_name
          let confidence := min (cc.2 + 1/10) 1
          let next_billing_date :=
            match date with
            | none => none
            | some d => some (calculate_next_billing_date_from_cycle d billing_cycle)
          some { merchant_name := pyTitle merchant_name
                 service_name := get_service_name merchant_name
                 amount := amount
                 billing_cycle := billing_cycle
                 category := cc.1
                 confidence_score := confidence
                 next_billing_date := next_billing_date
                 cancellation_info := get_cancellation_info merchant_name }

/-- Embeds `_analyze_email_for_subscription` (the live email discovery
adapter): wraps the extracted info into a `DetectedSubscription` with
source `email` and the message date as last transaction date. -/
def analyze_email_for_subscription (senderMerchant subjectMerchant : Option String)
    (amountMatches : List (List ℚ)) (fullText : String) (message_date : Option ℕ) :
    Option DetectedSubscription :=
  match extract_subscription_info_from_email senderMerchant subjectMerchant
      amountMatches fullText message_date with
  | none => none
  | some info =>
      some { merchant_name := info.merchant_name
             service_name := info.service_name
             amount := info.amount
             billing_cycle := info.billing_cycle
             category := info.category
             confidence_score := info.confidence_score
             detection_source := "email"
             last_transaction_date := message_date
             next_billing_date := info.next_billing_date
             cancellation_info := info.cancellation_info
             plaid_stream_id := none }

/-! ### Merge engine (`_merge_subscription_sources`,
`_are_subscriptions_duplicate`, `_merge_duplicate_subscriptions`) -/

/-- The merchant-alias table of `_are_subscriptions_duplicate`, in dict
insertion order: base name paired with its variants. -/
def merchant_variations : List (String × List String) :=
  [ ("netflix", ["netflix.com", "netflix inc"]),
    ("spotify", ["spotify.com", "spotify ab"]),
    ("amazon", ["amazon.com", "amzn", "amazon prime"]),
    ("apple", ["apple.com", "itunes", "app store"]),
    ("google", ["google.com", "youtube", "google play"]),
    ("microsoft", ["microsoft.com", "msft", "office 365"]) ]

/-- One side of the alias test: the base name or any variant occurs in
the normalized merchant name. -/
def nameMatchesVariation (name base : String) (vars : List String) : Bool :=
  containsSub name base || vars.any (fun v => containsSub name v)

/-- Embeds `_are_subscriptions_duplicate`: equality of normalized
names, containment either way, a shared alias-table entry, or close
amounts with equal cycle and category. -/
def are_subscriptions_duplicate (sub1 sub2 : DetectedSubscription) : Bool :=
  let name1 := trimStr (strLower sub1.merchant_name)
  let name2 := trimStr (strLower sub2.merchant_name)
  if name1 = name2 then true
  else if containsSub name2 name1 || containsSub name1 name2 then true
  else if merchant_variations.any
      (fun bv => nameMatchesVariation name1 bv.1 bv.2 && nameMatchesVariation name2 bv.1 bv.2) then
    true
  else if |sub1.amount - sub2.amount| ≤ 1 ∧ sub1.billing_cycle = sub2.billing_cycle ∧
      sub1.category = sub2.category then true
  else false

/-- The merged last-transaction date of `_merge_duplicate_subscriptions`:
missing dates fall back to `datetime.min` (day `0`), and a resulting
`datetime.min` is turned back into `None`. -/
def mergedLastDate (a b : Option ℕ) : Option ℕ :=
  let m := max (a.getD 0) (b.getD 0)
  if m = 0 then none else some m

/-- Embeds `_merge_duplicate_subscriptions`.  `bank_sub` is the first
argument when it is bank-origin and otherwise the second; `email_sub`
is the second argument when it is email-origin and otherwise the
first.  Amount, billing cycle and stream id prefer the bank side, the
merchant name is the longer string (the Python `max` with a length key,
which keeps the bank side on ties), service and cancellation data use
the Python `or` preferences, confidence is the maximum of the two plus
`0.1` clamped to `1.0`, and the source becomes `both`. -/
def merge_duplicate_subscriptions (sub1 sub2 : DetectedSubscription) :
    DetectedSubscription :=
  let bank_sub := if sub1.detection_source = "bank" then sub1 else sub2
  let email_sub := if sub2.detection_source = "email" then sub2 else sub1
  { merchant_name :=
      if email_sub.merchant_name.length > bank_sub.merchant_name.length then
        email_sub.merchant_name
      else bank_sub.merchant_name
    service_name := pyOrStr email_sub.service_name bank_sub.service_name
    amount := if bank_sub.detection_source = "bank" then bank_sub.amount else email_sub.amount
    billing_cycle :=
      if bank_sub.detection_source = "bank" then bank_sub.billing_cycle
      else email_sub.billing_cycle
    category := bank_sub.category
    confidence_score := min (max bank_sub.confidence_score email_sub.confidence_score + 1/10) 1
    detection_source := "both"
    last_transaction_date :=
      mergedLastDate bank_sub.last_transaction_date email_sub.last_transaction_date
    next_billing_date := pyOrOpt bank_sub.next_billing_date email_sub.next_billing_date
    cancellation_info := pyOrOpt bank_sub.cancellation_info email_sub.cancellation_info
    plaid_stream_id :=
      if bank_sub.detection_source = "bank" then bank_sub.plaid_stream_id else none }

/-- One step of the email phase of `_merge_subscription_sources`: find
the first already-merged record that duplicates the email candidate and
replace it by the merge, appending the candidate when none does. -/
def insertEmailSub : List DetectedSubscription → DetectedSubscription →
    List DetectedSubscription
  | [], e => [e]
  | m :: rest, e =>
      if are_subscriptions_duplicate m e then merge_duplicate_subscriptions m e :: rest
      else m :: insertEmailSub rest e

/-- The comparison used by the final sort of `_merge_subscription_sources`:
the Python stable sort by the key `(confidence_score, amount)` with
`reverse=True` keeps `a` before `b` exactly when the key of `a` is at
least the key of `b` in lexicographic order. -/
def confAmountGE (a b : DetectedSubscription) : Bool :=
  decide (b.confidence_score < a.confidence_score ∨
    (b.confidence_score = a.confidence_score ∧ b.amount ≤ a.amount))

/-- Embeds `_merge_subscription_sources`: start from the bank list,
fold every email candidate in through duplicate detection, and sort the
result by `(confidence_score, amount)` descending. -/
def merge_subscription_sources (bank_subs email_subs : List DetectedSubscription) :
    List DetectedSubscription :=
  (email_subs.foldl insertEmailSub bank_subs).mergeSort confAmountGE

/-! ### Analytics engine (`_analyze_subscription_patterns`), restricted
to the two totals the claims are about -/

/-- One iteration of the totals loop of `_analyze_subscription_patterns`:
the accumulator holds `(monthly_total, annual_total)` and cycles other
than the four named ones contribute nothing. -/
def totalsStep (acc : ℚ × ℚ) (sub : DetectedSubscription) : ℚ × ℚ :=
  if sub.billing_cycle = "monthly" then (acc.1 + sub.amount, acc.2 + sub.amount * 12)
  else if sub.billing_cycle = "annual" then (acc.1 + sub.amount / 12, acc.2 + sub.amount)
  else if sub.billing_cycle = "weekly" then
    (acc.1 + sub.amount * (433/100), acc.2 + sub.amount * 52)
  else if sub.billing_cycle = "quarterly" then
    (acc.1 + sub.amount / 3, acc.2 + sub.amount * 4)
  else acc

/-- Round half to even on rationals, the behaviour of the Python
`round` builtin. -/
def roundHalfEven (q : ℚ) : ℤ :=
  if q - ⌊q⌋ < 1/2 then ⌊q⌋
  else if 1/2 < q - ⌊q⌋ then ⌊q⌋ + 1
  else if ⌊q⌋ % 2 = 0 then ⌊q⌋ else ⌊q⌋ + 1

/-- The Python `round(q, 2)`. -/
def roundTo2 (q : ℚ) : ℚ := ((roundHalfEven (q * 100) : ℤ) : ℚ) / 100

/-- The `(total_monthly, total_annual)` pair computed by
`_analyze_subscription_patterns`: `(0, 0)` on the empty list (the early
return), otherwise the accumulated totals rounded to two decimals. -/
def analyze_totals : List DetectedSubscription → ℚ × ℚ
  | [] => (0, 0)
  | s :: rest =>
      let t := (s :: rest).foldl totalsStep (0, 0)
      (roundTo2 t.1, roundTo2 t.2)

/-- Modelled from the wording of the spec for comparison with the code:
the monthly-equivalent cost of one subscription under the fixed
multipliers (monthly times one, annual divided by twelve, weekly times
4.33, quarterly divided by three). -/
def spec_monthly_equiv (sub : DetectedSubscription) : ℚ :=
  if sub.billing_cycle = "monthly" then sub.amount
  else if sub.billing_cycle = "annual" then sub.amount / 12
  else if sub.billing_cycle = "weekly" then sub.amount * (433/100)
  else if sub.billing_cycle = "quarterly" then sub.amount / 3
  else 0

/-- Modelled from the wording of the spec for comparison with the code:
the annual-equivalent cost of one subscription under the fixed
multipliers (monthly times twelve, annual times one, weekly times 52,
quarterly times four). -/
def spec_annual_equiv (sub : DetectedSubscription) : ℚ :=
  if sub.billing_cycle = "monthly" then sub.amount * 12
  else if sub.billing_cycle = "annual" then sub.amount
  else if sub.billing_cycle = "weekly" then sub.amount * 52
  else if sub.billing_cycle = "quarterly" then sub.amount * 4
  else 0

/-! ### Shared helper lemmas -/

/-- Groups of fewer than two transactions are rejected. -/
theorem detect_none_of_small (txs : List Txn) (h : txs.length < 2) :
    detect_recurring_pattern txs = none := by
  unfold detect_recurring_pattern
  rw [if_pos h]

/-- Groups failing the amount-consistency check are rejected. -/
theorem detect_none_of_variance (txs : List Txn) (h2 : 2 ≤ txs.length)
    (hvar : amount_consistency txs > 3/10) :
    detect_recurring_pattern txs = none := by
  unfold detect_recurring_pattern
  rw [if_neg (by omega), if_pos hvar]

/-- Claim C4: a transaction group of at least two transactions whose
ratio of distinct amounts to transaction count exceeds `0.3` is
rejected by the recurring pattern detector; no pattern is emitted. -/
theorem C4_variance_reject (txs : List Txn) (h2 : 2 ≤ txs.length)
    (hvar : amount_consistency txs > 3/10) :
    detect_recurring_pattern txs = none :=
  detect_none_of_variance txs h2 hvar

/-- Concrete input for the C4 witness: two transactions with different
amounts, giving distinct ratio `2/2 = 1 > 0.3`. -/
def varianceTxs : List Txn := [⟨10, 0⟩, ⟨20, 30⟩]

/-- Witness for C4 at a concrete group. -/
theorem C4_variance_reject_witness :
    2 ≤ varianceTxs.length ∧ amount_consistency varianceTxs > 3/10 ∧
    detect_recurring_pattern varianceTxs = none := by
  have h2 : 2 ≤ varianceTxs.length := by decide
  have hvar : amount_consistency varianceTxs > 3/10 := by
    norm_num [amount_consistency, varianceTxs, List.dedup_cons_of_not_mem]
  exact ⟨h2, hvar, C4_variance_reject varianceTxs h2 hvar⟩

/-- Claim C5: a group that passes the amount-consistency check but
whose average consecutive-day interval lies outside all four inclusive
ranges (monthly 25 to 35, quarterly 85 to 95, annual 350 to 375,
weekly 6 to 8) receives no billing cycle and is rejected. -/
theorem C5_cycle_reject (txs : List Txn) (h2 : 2 ≤ txs.length)
    (hvar : amount_consistency txs ≤ 3/10)
    (hm : ¬(25 ≤ avg_interval txs ∧ avg_interval txs ≤ 35))
    (hq : ¬(85 ≤ avg_interval txs ∧ avg_interval txs ≤ 95))
    (ha : ¬(350 ≤ avg_interval txs ∧ avg_interval txs ≤ 375))
    (hw : ¬(6 ≤ avg_interval txs ∧ avg_interval txs ≤ 8)) :
    cycleOfAvg (avg_interval txs) = none ∧ detect_recurring_pattern txs = none := by
  have hc : cycleOfAvg (avg_interval txs) = none := by
    unfold cycleOfAvg
    rw [if_neg hm, if_neg hq, if_neg ha, if_neg hw]
  refine ⟨hc, ?_⟩
  unfold detect_recurring_pattern
  rw [if_neg (by omega), if_neg (not_lt.mpr hvar), hc]

/-- Concrete input for the C5 witness: four equal amounts (ratio `1/4`)
with an average interval of 50 days. -/
def cycleRejectTxs : List Txn := [⟨12, 0⟩, ⟨12, 50⟩, ⟨12, 100⟩, ⟨12, 150⟩]

/-- Witness for C5 at a concrete group. -/
theorem C5_cycle_reject_witness :
    cycleOfAvg (avg_interval cycleRejectTxs) = none ∧
    detect_recurring_pattern cycleRejectTxs = none := by
  have havg : avg_interval cycleRejectTxs = 50 := by
    norm_num [avg_interval, txIntervals, cycleRejectTxs, intervalsOf]
  have hvar : amount_consistency cycleRejectTxs ≤ 3/10 := by
    norm_num [amount_consistency, cycleRejectTxs, List.dedup_cons_of_mem,
      List.dedup_cons_of_not_mem]
  exact C5_cycle_reject cycleRejectTxs (by decide) hvar
    (by rw [havg]; norm_num) (by rw [havg]; norm_num)
    (by rw [havg]; norm_num) (by rw [havg]; norm_num)

/-- Claim C10: the detector never emits a pattern for a group of fewer
than four transactions, because with two or three transactions the
distinct-amount ratio is at least one third, which already exceeds the
`0.3` threshold even when every amount is identical. -/
theorem C10_small_group_reject (txs : List Txn) (h : txs.length < 4) :
    detect_recurring_pattern txs = none := by
  by_cases hlt : txs.length < 2
  · exact detect_none_of_small txs hlt
  · have h2 : 2 ≤ txs.length := by omega
    have h3 : txs.length ≤ 3 := by omega
    have hne : txs.map Txn.amount ≠ [] := by
      cases txs with
      | nil => simp at h2
      | cons a t => simp
    have hd1 : 1 ≤ (txs.map Txn.amount).dedup.length := by
      rcases Nat.eq_zero_or_pos (txs.map Txn.amount).dedup.length with h0 | hp
      · exact absurd ((List.dedup_eq_nil _).mp (List.length_eq_zero.mp h0)) hne
      · exact hp
    have hvar : amount_consistency txs > 3/10 := by
      unfold amount_consistency
      rw [gt_iff_lt, div_lt_div_iff₀ (by norm_num) (by positivity)]
      have hc1 : (1 : ℚ) ≤ ((txs.map Txn.amount).dedup.length : ℚ) := by
        exact_mod_cast hd1
      have hc3 : ((txs.length : ℕ) : ℚ) ≤ 3 := by exact_mod_cast h3
      linarith
    exact detect_none_of_variance txs h2 hvar

/-- Concrete input for the C10 witness: three identical transactions at
a perfect monthly cadence, still rejected. -/
def threeTxs : List Txn := [⟨10, 0⟩, ⟨10, 30⟩, ⟨10, 60⟩]

/-- Witness for C10 at a concrete group. -/
theorem C10_small_group_reject_witness :
    threeTxs.length < 4 ∧ detect_recurring_pattern threeTxs = none :=
  ⟨by decide, C10_small_group_reject threeTxs (by decide)⟩

/-- Counterexample for claim C3: the classifier maps "Netflix Inc" to
the pattern-group name `streaming`, not to `entertainment` as claimed;
the `category` field of the taxonomy dict is never read. -/
theorem C3_counterexample :
    classify_merchant "Netflix Inc" = ("streaming", 9/10) ∧
    ("streaming" : String) ≠ "entertainment" :=
  ⟨rfl, by decide⟩

/-- Claim C3 as amended: both "Netflix Inc" and "netflix.com" classify
to category `streaming` with confidence `0.9`. -/
theorem C3_amended :
    classify_merchant "Netflix Inc" = ("streaming", 9/10) ∧
    classify_merchant "netflix.com" = ("streaming", 9/10) :=
  ⟨rfl, rfl⟩

/-- Claim C8: the merge engine is idempotent; merging the merged list
with an empty email list returns the same records up to ordering. -/
theorem C8_merge_idempotent (A B : List DetectedSubscription) :
    List.Perm (merge_subscription_sources (merge_subscription_sources A B) [])
      (merge_subscription_sources A B) := by
  unfold merge_subscription_sources
  simp only [List.foldl_nil]
  exact List.mergeSort_perm _ confAmountGE

/-- Helper: under a bank-origin and an email-origin input (in either
argument order) the merge resolves its source selectors the same way,
yielding one explicit record. -/
theorem merge_dup_bank_email (b e : DetectedSubscription)
    (hb : b.detection_source = "bank") (he : e.detection_source = "email") :
    merge_duplicate_subscriptions b e =
      { merchant_name :=
          if e.merchant_name.length > b.merchant_name.length then e.merchant_name
          else b.merchant_name
        service_name := pyOrStr e.service_name b.service_name
        amount := b.amount
        billing_cycle := b.billing_cycle
        category := b.category
        confidence_score := min (max b.confidence_score e.confidence_score + 1/10) 1
        detection_source := "both"
        last_transaction_date := mergedLastDate b.last_transaction_date e.last_transaction_date
        next_billing_date := pyOrOpt b.next_billing_date e.next_billing_date
        cancellation_info := pyOrOpt b.cancellation_info e.cancellation_info
        plaid_stream_id := b.plaid_stream_id } ∧
    merge_duplicate_subscriptions e b = merge_duplicate_subscriptions b e := by
  constructor
  · simp [merge_duplicate_subscriptions, hb, he]
  · simp [merge_duplicate_subscriptions, hb, he]

/-- Helper: the string picked by the Python `max(.., .., key=len)` is
one of its two arguments. -/
theorem pickLonger_or (x y : String) :
    (if y.length > x.length then y else x) = x ∨
    (if y.length > x.length then y else x) = y := by
  split_ifs
  · right; rfl
  · left; rfl

/-- Helper: the string picked by the Python `max(.., .., key=len)` has
the maximum of the two lengths. -/
theorem pickLonger_len (x y : String) :
    (if y.length > x.length then y else x).length = max x.length y.length := by
  split_ifs <;> omega

/-- Claim C1: merging a duplicate bank-origin and email-origin pair (in
either order) yields detection source `both`, confidence
`max(confidence_a, confidence_b) + 0.1` clamped to `1.0`, the amount
and billing cycle of the bank-origin candidate, and a merchant name
that is one of the two names and has the longer length. -/
theorem C1_merge_policy (b e : DetectedSubscription)
    (hb : b.detection_source = "bank") (he : e.detection_source = "email")
    (hdup : are_subscriptions_duplicate b e = true) :
    ((merge_duplicate_subscriptions b e).detection_source = "both" ∧
     (merge_duplicate_subscriptions b e).confidence_score =
       min (max b.confidence_score e.confidence_score + 1/10) 1 ∧
     (merge_duplicate_subscriptions b e).amount = b.amount ∧
     (merge_duplicate_subscriptions b e).billing_cycle = b.billing_cycle ∧
     ((merge_duplicate_subscriptions b e).merchant_name = b.merchant_name ∨
      (merge_duplicate_subscriptions b e).merchant_name = e.merchant_name) ∧
     (merge_duplicate_subscriptions b e).merchant_name.length =
       max b.merchant_name.length e.merchant_name.length) ∧
    ((merge_duplicate_subscriptions e b).detection_source = "both" ∧
     (merge_duplicate_subscriptions e b).confidence_score =
       min (max b.confidence_score e.confidence_score + 1/10) 1 ∧
     (merge_duplicate_subscriptions e b).amount = b.amount ∧
     (merge_duplicate_subscriptions e b).billing_cycle = b.billing_cycle ∧
     ((merge_duplicate_subscriptions e b).merchant_name = b.merchant_name ∨
      (merge_duplicate_subscriptions e b).merchant_name = e.merchant_name) ∧
     (merge_duplicate_subscriptions e b).merchant_name.length =
       max b.merchant_name.length e.merchant_name.length) := by
  obtain ⟨h1, h2⟩ := merge_dup_bank_email b e hb he
  rw [h2, h1]
  exact ⟨⟨rfl, rfl, rfl, rfl, pickLonger_or _ _, pickLonger_len _ _⟩,
    ⟨rfl, rfl, rfl, rfl, pickLonger_or _ _, pickLonger_len _ _⟩⟩

/-- The bank-origin Netflix candidate of the worked spec example. -/
def bankNetflix : DetectedSubscription :=
  { merchant_name := "Netflix", service_name := some "Netflix", amount := 1549/100,
    billing_cycle := "monthly", category := "streaming", confidence_score := 9/10,
    detection_source := "bank", last_transaction_date := some 739000,
    next_billing_date := some 739030,
    cancellation_info := some "https://www.netflix.com/account",
    plaid_stream_id := some "stream-1" }

/-- The email-origin Netflix candidate of the worked spec example. -/
def emailNetflix : DetectedSubscription :=
  { merchant_name := "Netflix.com", service_name := some "Netflix", amount := 1549/100,
    billing_cycle := "monthly", category := "streaming", confidence_score := 8/10,
    detection_source := "email", last_transaction_date := none,
    next_billing_date := none,
    cancellation_info := some "https://www.netflix.com/account",
    plaid_stream_id := none }

/-- Witness for C1 at the worked Netflix example of the spec. -/
theorem C1_merge_policy_witness :
    bankNetflix.detection_source = "bank" ∧ emailNetflix.detection_source = "email" ∧
    are_subscriptions_duplicate bankNetflix emailNetflix = true ∧
    (merge_duplicate_subscriptions bankNetflix emailNetflix).detection_source = "both" ∧
    (merge_duplicate_subscriptions bankNetflix emailNetflix).confidence_score = 1 ∧
    (merge_duplicate_subscriptions bankNetflix emailNetflix).amount = 1549/100 ∧
    (merge_duplicate_subscriptions bankNetflix emailNetflix).billing_cycle = "monthly" ∧
    (merge_duplicate_subscriptions bankNetflix emailNetflix).merchant_name = "Netflix.com" := by
  have hdup : are_subscriptions_duplicate bankNetflix emailNetflix = true := rfl
  obtain ⟨⟨hsrc, hconf, hamt, hcyc, _, _⟩, _⟩ :=
    C1_merge_policy bankNetflix emailNetflix rfl rfl hdup
  refine ⟨rfl, rfl, hdup, hsrc, ?_, hamt.trans rfl, hcyc.trans rfl, ?_⟩
  · rw [hconf]
    rw [show bankNetflix.confidence_score = 9/10 from rfl,
      show emailNetflix.confidence_score = 8/10 from rfl]
    rw [max_eq_left (by norm_num)]
    norm_num
  · rfl

/-- The failing input for claim C2: four identical charges of 15.49 at
days 0, 6, 12 and 105.  The distinct-amount ratio is `1/4` and the
average interval is `(6 + 6 + 93)/3 = 35`, so the group is accepted as
monthly, yet the interval spread `93 - 6 = 87` exceeds the average, so
`interval_consistency = 1 - 87/35` is negative. -/
def badGroupTxs : List Txn :=
  [⟨1549/100, 0⟩, ⟨1549/100, 6⟩, ⟨1549/100, 12⟩, ⟨1549/100, 105⟩]

/-- The pattern record the detector produces on `badGroupTxs`. -/
def badPattern : PatternResult :=
  { billing_cycle := "monthly", average_amount := 1549/100,
    interval_consistency := 1 - 87/35, last_transaction_date := 105,
    transaction_count := 4 }

/-- Claim C2 fails on the transaction-pattern bank path: the candidate
built from `badGroupTxs` carries a negative confidence score, violating
the `[0, 1]` invariant. -/
theorem C2_negative_confidence :
    bank_candidate_for_group "netflix" badGroupTxs =
      some (create_subscription_from_transaction ⟨"netflix", badPattern, "streaming", 9/10⟩) ∧
    (create_subscription_from_transaction
      ⟨"netflix", badPattern, "streaming", 9/10⟩).confidence_score < 0 := by
  have hac : amount_consistency badGroupTxs = 1/4 := by
    have hd : (badGroupTxs.map Txn.amount).dedup = [1549/100] := by
      simp [badGroupTxs, List.dedup_cons_of_mem, List.dedup_cons_of_not_mem]
    rw [amount_consistency, hd]
    norm_num [badGroupTxs]
  have havg : avg_interval badGroupTxs = 35 := by
    norm_num [avg_interval, txIntervals, badGroupTxs, intervalsOf]
  have hdet : detect_recurring_pattern badGroupTxs = some badPattern := by
    unfold detect_recurring_pattern
    rw [if_neg (by decide), if_neg (by rw [hac]; norm_num), havg]
    rw [show cycleOfAvg 35 = some "monthly" from by norm_num [cycleOfAvg]]
    have hint : txIntervals badGroupTxs = [6, 6, 93] := by
      norm_num [txIntervals, badGroupTxs, intervalsOf]
    simp only [badPattern, Option.some.injEq, PatternResult.mk.injEq, hint]
    norm_num [badGroupTxs, listMaxI, listMinI, listMaxN, max_def, min_def]
  constructor
  · unfold bank_candidate_for_group
    rw [hdet, show classify_merchant "netflix" = ("streaming", 9/10) from rfl]
    norm_num
  · show (9 : ℚ)/10 * badPattern.interval_consistency < 0
    rw [show badPattern.interval_consistency = 1 - 87/35 from rfl]
    norm_num

/-- Helper: any amount the extractor accepts lies in the plausibility
band. -/
theorem extract_amount_mem_band (pms : List (List ℚ)) (q : ℚ)
    (h : extract_amount_from_text pms = some q) :
    99/100 ≤ q ∧ q ≤ 99999/100 := by
  induction pms with
  | nil => simp [extract_amount_from_text] at h
  | cons ms rest ih =>
      cases ms with
      | nil =>
          simp only [extract_amount_from_text] at h
          exact ih h
      | cons a as =>
          simp only [extract_amount_from_text] at h
          by_cases hc : 99/100 ≤ a ∧ a ≤ 99999/100
          · rw [if_pos hc] at h
            obtain rfl := Option.some.inj h
            exact hc
          · rw [if_neg hc] at h
            exact ih h

/-- Helper: when every matched value is outside the band, no amount is
resolved. -/
theorem extract_amount_none_of_out_of_band (pms : List (List ℚ))
    (hout : ∀ l ∈ pms, ∀ q ∈ l, q < 99/100 ∨ 99999/100 < q) :
    extract_amount_from_text pms = none := by
  induction pms with
  | nil => rfl
  | cons ms rest ih =>
      have hrest := ih (fun l hl => hout l (List.mem_cons_of_mem _ hl))
      cases ms with
      | nil => simpa only [extract_amount_from_text] using hrest
      | cons a as =>
          have ha := hout (a :: as) (List.mem_cons_self _ _) a (List.mem_cons_self _ _)
          simp only [extract_amount_from_text]
          rw [if_neg]
          · exact hrest
          · rintro ⟨h1, h2⟩
            rcases ha with h | h
            · linarith
            · linarith

/-- Helper: with no resolved amount the email adapter emits no
candidate. -/
theorem analyze_none_of_no_amount (sM subM : Option String) (pms : List (List ℚ))
    (text : String) (d : Option ℕ) (h : extract_amount_from_text pms = none) :
    analyze_email_for_subscription sM subM pms text d = none := by
  cases hm : pyOrStr sM subM with
  | none =>
      unfold analyze_email_for_subscription extract_subscription_info_from_email
      rw [hm]
  | some m =>
      unfold analyze_email_for_subscription extract_subscription_info_from_email
      rw [hm, h]

/-- Claim C6: the email amount extraction accepts only values in the
band `[0.99, 999.99]`, and when every matched value is outside the band
no amount is resolved and the message yields no candidate. -/
theorem C6_amount_band :
    (∀ (pms : List (List ℚ)) (q : ℚ), extract_amount_from_text pms = some q →
      99/100 ≤ q ∧ q ≤ 99999/100) ∧
    (∀ (pms : List (List ℚ)) (sM subM : Option String) (text : String) (d : Option ℕ),
      (∀ l ∈ pms, ∀ q ∈ l, q < 99/100 ∨ 99999/100 < q) →
      extract_amount_from_text pms = none ∧
      analyze_email_for_subscription sM subM pms text d = none) := by
  constructor
  · exact extract_amount_mem_band
  · intro pms sM subM text d hout
    have hnone := extract_amount_none_of_out_of_band pms hout
    exact ⟨hnone, analyze_none_of_no_amount sM subM pms text d hnone⟩

/-- Witness for C6: an extracted value of 1500.00 is rejected and the
message yields no candidate. -/
theorem C6_amount_band_witness :
    (∀ l ∈ [[(1500 : ℚ)]], ∀ q ∈ l, q < 99/100 ∨ 99999/100 < q) ∧
    extract_amount_from_text [[(1500 : ℚ)]] = none ∧
    analyze_email_for_subscription (some "Acme") none [[(1500 : ℚ)]]
      "your monthly invoice" none = none := by
  have hout : ∀ l ∈ [[(1500 : ℚ)]], ∀ q ∈ l, q < 99/100 ∨ 99999/100 < q := by
    intro l hl q hq
    have hl2 : l = [(1500 : ℚ)] := by simpa using hl
    subst hl2
    have hq2 : q = 1500 := by simpa using hq
    subst hq2
    right
    norm_num
  obtain ⟨h1, h2⟩ :=
    C6_amount_band.2 [[(1500 : ℚ)]] (some "Acme") none "your monthly invoice" none hout
  exact ⟨hout, h1, h2⟩

/-- Claim C7: every candidate emitted by the live email discovery
adapter has confidence equal to the classifier confidence of the
extracted merchant name plus `0.1`, clamped to `1.0`. -/
theorem C7_email_confidence (sM subM : Option String) (pms : List (List ℚ))
    (text : String) (d : Option ℕ) (sub : DetectedSubscription)
    (h : analyze_email_for_subscription sM subM pms text d = some sub) :
    ∃ m, pyOrStr sM subM = some m ∧
      sub.confidence_score = min ((classify_merchant m).2 + 1/10) 1 := by
  unfold analyze_email_for_subscription extract_subscription_info_from_email at h
  cases hm : pyOrStr sM subM with
  | none =>
      rw [hm] at h
      exact absurd h (by simp)
  | some m =>
      rw [hm] at h
      cases ha : extract_amount_from_text pms with
      | none =>
          rw [ha] at h
          exact absurd h (by simp)
      | some a =>
          rw [ha] at h
          obtain rfl := Option.some.inj h
          exact ⟨m, rfl, rfl⟩

/-- Witness for C7 at a concrete Netflix receipt. -/
theorem C7_email_confidence_witness :
    ∃ sub, analyze_email_for_subscription (some "Netflix") none [[(1549 : ℚ)/100]]
        "your monthly receipt" (some 739000) = some sub ∧
      ∃ m, pyOrStr (some "Netflix") none = some m ∧
        sub.confidence_score = min ((classify_merchant m).2 + 1/10) 1 := by
  have hamt : extract_amount_from_text [[(1549 : ℚ)/100]] = some (1549/100) := by
    simp only [extract_amount_from_text]
    rw [if_pos (by norm_num)]
  have h : analyze_email_for_subscription (some "Netflix") none [[(1549 : ℚ)/100]]
      "your monthly receipt" (some 739000) =
      some { merchant_name := "Netflix", service_name := some "Netflix",
             amount := 1549/100, billing_cycle := "monthly", category := "streaming",
             confidence_score := min (9/10 + 1/10) 1, detection_source := "email",
             last_transaction_date := some 739000, next_billing_date := some 739030,
             cancellation_info := some "https://www.netflix.com/account",
             plaid_stream_id := none } := by
    unfold analyze_email_for_subscription extract_subscription_info_from_email
    rw [show pyOrStr (some "Netflix") none = some "Netflix" from rfl, hamt]
    rfl
  exact ⟨_, h, C7_email_confidence _ _ _ _ _ _ h⟩

/-- Helper: the totals loop of the analytics engine accumulates exactly
the per-subscription monthly and annual equivalents. -/
theorem foldl_totalsStep (subs : List DetectedSubscription) :
    ∀ m a : ℚ, subs.foldl totalsStep (m, a) =
      (m + (subs.map spec_monthly_equiv).sum, a + (subs.map spec_annual_equiv).sum) := by
  induction subs with
  | nil => intro m a; simp
  | cons s rest ih =>
      intro m a
      simp only [List.foldl_cons, List.map_cons, List.sum_cons]
      have hstep : totalsStep (m, a) s = (m + spec_monthly_equiv s, a + spec_annual_equiv s) := by
        unfold totalsStep spec_monthly_equiv spec_annual_equiv
        split_ifs <;> simp [Prod.mk.injEq]
      rw [hstep, ih]
      simp only [Prod.mk.injEq]
      constructor <;> ring

/-- A monthly subscription record with the given merchant and amount,
used by the C9 example. -/
def monthlySub (name : String) (amt : ℚ) : DetectedSubscription :=
  { merchant_name := name, service_name := none, amount := amt,
    billing_cycle := "monthly", category := "unknown", confidence_score := 8/10,
    detection_source := "bank", last_transaction_date := none,
    next_billing_date := none, cancellation_info := none, plaid_stream_id := none }

/-- The four monthly subscriptions of the worked analytics example. -/
def fourMonthly : List DetectedSubscription :=
  [monthlySub "Spotify" (999/100), monthlySub "Hulu" (1299/100),
   monthlySub "Adobe" (5299/100), monthlySub "Peloton" (1499/100)]

/-- Claim C9: the analytics totals are the rounded sums of the fixed
per-cycle equivalents, and the worked example of four monthly
subscriptions of 9.99, 12.99, 52.99 and 14.99 yields a monthly total of
90.96 and an annual total of 1091.52. -/
theorem C9_analytics_totals :
    (∀ subs : List DetectedSubscription,
      analyze_totals subs =
        (roundTo2 ((subs.map spec_monthly_equiv).sum),
         roundTo2 ((subs.map spec_annual_equiv).sum))) ∧
    analyze_totals fourMonthly = (9096/100, 109152/100) := by
  have hfloor : ∀ n : ℤ, roundHalfEven ((n : ℤ) : ℚ) = n := by
    intro n
    unfold roundHalfEven
    rw [Int.floor_intCast]
    norm_num
  have hzero : roundTo2 0 = 0 := by
    unfold roundTo2
    rw [show ((0 : ℚ) * 100) = (((0 : ℤ) : ℤ) : ℚ) from by norm_num, hfloor]
    norm_num
  have hgen : ∀ subs : List DetectedSubscription,
      analyze_totals subs =
        (roundTo2 ((subs.map spec_monthly_equiv).sum),
         roundTo2 ((subs.map spec_annual_equiv).sum)) := by
    intro subs
    cases subs with
    | nil => simp [analyze_totals, hzero]
    | cons s rest =>
        simp only [analyze_totals]
        rw [foldl_totalsStep (s :: rest) 0 0, zero_add, zero_add]
  refine ⟨hgen, ?_⟩
  rw [hgen fourMonthly]
  have hm : ((fourMonthly.map spec_monthly_equiv).sum : ℚ) = 9096/100 := by
    norm_num [fourMonthly, monthlySub, spec_monthly_equiv]
  have ha : ((fourMonthly.map spec_annual_equiv).sum : ℚ) = 109152/100 := by
    norm_num [fourMonthly, monthlySub, spec_annual_equiv]
  rw [hm, ha]
  unfold roundTo2
  rw [show ((9096 : ℚ)/100 * 100) = (((9096 : ℤ) : ℤ) : ℚ) from by norm_num,
    show ((109152 : ℚ)/100 * 100) = (((109152 : ℤ) : ℤ) : ℚ) from by norm_num,
    hfloor, hfloor]
  norm_num
